import Mathlib

/-!
Verification of the MajReplay mahjong transcript core: the tile codec
(`src/mahjong/src/tile.rs`), the seat algebra and game configuration
(`src/mahjong/src/game.rs`).  Each Rust type and function is embedded as a
Lean definition of the same name; theorems settle the specified properties.
-/

namespace MajReplay

/-- Embeds `enum Direction` from `src/mahjong/src/lib.rs`. -/
inductive Direction
  | East
  | South
  | West
  | North
  deriving DecidableEq, Repr

/-- Embeds `enum DragonColor` from `src/mahjong/src/tile.rs`. -/
inductive DragonColor
  | White
  | Green
  | Red
  deriving DecidableEq, Repr

/-- Embeds `enum NumberTile`: character (manzu), dot (pinzu) and bamboo
(souzu) tiles, each carrying a `u8` rank (modelled as `Nat`; no arithmetic
is performed on it, so wrap-around never matters). -/
inductive NumberTile
  | Character (num : Nat)
  | Dot (num : Nat)
  | Bamboo (num : Nat)
  deriving DecidableEq, Repr

/-- Embeds `enum HonorTile`: wind and dragon tiles. -/
inductive HonorTile
  | Wind (d : Direction)
  | Dragon (c : DragonColor)
  deriving DecidableEq, Repr

/-- Embeds `enum MahjongTile`, the union of honor and number tiles. -/
inductive MahjongTile
  | Honor (t : HonorTile)
  | Number (t : NumberTile)
  deriving DecidableEq, Repr

/-- Embeds `impl Tile for NumberTile`, `fn number`: extracts the stored rank. -/
def NumberTile.number : NumberTile → Nat
  | .Character num => num
  | .Dot num => num
  | .Bamboo num => num

/-- Embeds `impl Tile for NumberTile`, `fn suit`: 'm' for characters,
'p' for dots, 's' for bamboo. -/
def NumberTile.suit : NumberTile → Char
  | .Character _ => 'm'
  | .Dot _ => 'p'
  | .Bamboo _ => 's'

/-- Embeds `impl Tile for HonorTile`, `fn suit`: always 'z'. -/
def HonorTile.suit (_ : HonorTile) : Char := 'z'

/-- Embeds `impl Tile for HonorTile`, `fn number`: the fixed honor table
East=1, South=2, West=3, North=4, White=5, Green=6, Red=7. -/
def HonorTile.number : HonorTile → Nat
  | .Wind .East => 1
  | .Wind .South => 2
  | .Wind .West => 3
  | .Wind .North => 4
  | .Dragon .White => 5
  | .Dragon .Green => 6
  | .Dragon .Red => 7

/-- Embeds `impl Tile for MahjongTile`, `fn number`: dispatches on the variant. -/
def MahjongTile.number : MahjongTile → Nat
  | .Honor t => t.number
  | .Number t => t.number

/-- Embeds `impl Tile for MahjongTile`, `fn suit`: dispatches on the variant. -/
def MahjongTile.suit : MahjongTile → Char
  | .Honor t => t.suit
  | .Number t => t.suit

/-- Embeds `impl fmt::Display for MahjongTile`: writes `"{}{}"` of the
tile's number (decimal) and suit character.  The spec calls this `encode`. -/
def encode (t : MahjongTile) : String :=
  Nat.repr t.number ++ String.singleton t.suit

/-- Embeds Rust `char::to_digit(10)`: `Some(c as u32 - 48)` exactly when the
character is an ASCII decimal digit (code points 48–57), `None` otherwise. -/
def charToDigit10 (c : Char) : Option Nat :=
  if 48 ≤ c.toNat ∧ c.toNat ≤ 57 then some (c.toNat - 48) else none

/-- Embeds the final `match (suit, number)` of `build` in
`src/mahjong/src/tile.rs`, arm by arm in source order. -/
def buildMatch (suit : Char) (number : Nat) : Except String MahjongTile :=
  if suit = 'z' then
    if number = 1 then .ok (.Honor (.Wind .East))
    else if number = 2 then .ok (.Honor (.Wind .South))
    else if number = 3 then .ok (.Honor (.Wind .West))
    else if number = 4 then .ok (.Honor (.Wind .North))
    else if number = 5 then .ok (.Honor (.Dragon .White))
    else if number = 6 then .ok (.Honor (.Dragon .Green))
    else if number = 7 then .ok (.Honor (.Dragon .Red))
    else .error "Invalid number for tile"
  else if suit = 'm' then .ok (.Number (.Character number))
  else if suit = 'p' then .ok (.Number (.Dot number))
  else if suit = 's' then .ok (.Number (.Bamboo number))
  else .error "Invalid suit"

/-- Embeds `pub fn build` (the spec's `decode`).  The three `.expect` calls
of the Rust source are modelled as the `none` branches of the `match`es on
`Option`: `build s = none` means the Rust code would panic on `s`, while
`some r` is the value the function returns. -/
def build (s : String) : Option (Except String MahjongTile) :=
  if s.data.length ≠ 2 then some (.error "Invalid number of characters")
  else
    match s.data[0]? with
    | none => none
    | some first =>
      let number? := charToDigit10 first
      if number?.isNone then some (.error "First character is not a number")
      else
        match number? with
        | none => none
        | some number =>
          match s.data[1]? with
          | none => none
          | some suit => some (buildMatch suit number)

/-- The data-model invariant of the spec (§3): a Number tile's rank is
always 0–9 (Honor tiles compute their ordinal in 1–7, so the same bound
holds for them definitionally). -/
def ValidTile (t : MahjongTile) : Prop := t.number ≤ 9

instance : DecidablePred ValidTile := fun t =>
  inferInstanceAs (Decidable (t.number ≤ 9))

/-- Embeds `enum PlayerLocation` from `src/mahjong/src/game.rs`. -/
inductive PlayerLocation
  | Hero
  | Right
  | Across
  | Left
  deriving DecidableEq, Fintype, Repr

/-- Embeds the inner `fn to_int` of `move_relative`: the integer embedding
Hero=0, Right=1, Across=2, Left=3 (an `i32`, modelled as `Int`). -/
def PlayerLocation.to_int : PlayerLocation → Int
  | .Hero => 0
  | .Right => 1
  | .Across => 2
  | .Left => 3

/-- Embeds `PlayerLocation::move_relative`.  The `panic!` arm of the final
`match` is modelled as `none`; the four reachable arms return `some`. -/
def PlayerLocation.move_relative (self location : PlayerLocation) :
    Option PlayerLocation :=
  match (self.to_int + location.to_int) % 4 with
  | 0 => some .Hero
  | 1 => some .Right
  | 2 => some .Across
  | 3 => some .Left
  | _ => none

/-- Embeds `enum NumPlayers` from `src/mahjong/src/game.rs`. -/
inductive NumPlayers
  | Three
  | Four
  deriving DecidableEq, Repr

/-- Embeds `enum Length` (game length) from `src/mahjong/src/game.rs`. -/
inductive Length
  | East
  | South
  deriving DecidableEq, Repr

/-- Embeds the newtype `struct Seconds(pub u32)`. -/
structure Seconds where
  val : Nat
  deriving DecidableEq, Repr

/-- Embeds `enum RedFive` from `src/mahjong/src/game.rs`. -/
inductive RedFive
  | Zero
  | Three
  | Four
  deriving DecidableEq, Repr

/-- Stands for the external `chrono::DateTime<Local>` type; its internal
structure is irrelevant here (the claims only concern its absence). -/
structure DateTimeLocal where
  dummy : Unit

/-- Embeds `struct GameConfig` from `src/mahjong/src/game.rs`.  The
`[(PlayerLocation, u32); 4]` result array is modelled as a function from
`Fin 4`. -/
structure GameConfig where
  num_players : NumPlayers
  length : Option Length
  main_thinking_time : Option Seconds
  delay_thinking_time : Option Seconds
  red_five : Option RedFive
  hero : String
  right : String
  across : String
  left : String
  event : Option String
  site : Option String
  date : Option DateTimeLocal
  result : Option (Fin 4 → PlayerLocation × Nat)

/-- Embeds `impl Default for GameConfig`. -/
def GameConfig.default : GameConfig :=
  ⟨NumPlayers.Four, some Length.East, some ⟨20⟩, some ⟨5⟩, some RedFive.Three,
   "player1", "player2", "player3", "player4", none, none, none, none⟩

/-- Embeds `struct PonMeld` from `src/mahjong/src/game.rs`. -/
structure PonMeld where
  tile : MahjongTile
  source : PlayerLocation
  deriving DecidableEq

/-- The error category of EventModel construction (spec §7: a distinct
"invalid meld/event" error surfaced at assembly time). -/
inductive EventModelError
  | InvalidMeld
  deriving DecidableEq, Repr

/-- Modelled from the spec: the Rust source declares `PonMeld` as a plain
struct with no validating constructor, and spec §4.3 states the structural
preconditions are "construction-time ... an implementation must check (the
source model does not enforce these)".  Following the spec's words for
Pon — "source seat must differ from subject", surfaced as an invalid-meld
error (§7) — this is the checked constructor the source omits. -/
def buildPonMeld (subject : PlayerLocation) (tile : MahjongTile)
    (source : PlayerLocation) : Except EventModelError PonMeld :=
  if source = subject then .error .InvalidMeld else .ok ⟨tile, source⟩

instance instDecEqExcept {ε α : Type} [DecidableEq ε] [DecidableEq α] :
    DecidableEq (Except ε α) := fun x y =>
  match x, y with
  | .ok a, .ok b => decidable_of_iff (a = b) (by simp)
  | .error a, .error b => decidable_of_iff (a = b) (by simp)
  | .ok _, .error _ => .isFalse (by simp)
  | .error _, .ok _ => .isFalse (by simp)

/-! Helper lemmas about the codec. -/

theorem charToDigit10_eq_some {c : Char} {d : Nat}
    (h : charToDigit10 c = some d) :
    48 ≤ c.toNat ∧ c.toNat ≤ 57 ∧ d = c.toNat - 48 := by
  unfold charToDigit10 at h
  split_ifs at h with hc
  exact ⟨hc.1, hc.2, (Option.some.inj h).symm⟩

theorem repr_of_digit_char {c : Char} (h1 : 48 ≤ c.toNat) (h2 : c.toNat ≤ 57) :
    Nat.repr (c.toNat - 48) = String.mk [c] := by
  have hc : c = Char.ofNat c.toNat := (Char.ofNat_toNat c).symm
  set k := c.toNat with hk
  rw [hc]
  interval_cases k <;> decide

theorem buildMatch_eq_ok {suit : Char} {number : Nat} {t : MahjongTile}
    (h : buildMatch suit number = .ok t) :
    t.number = number ∧ t.suit = suit := by
  unfold buildMatch at h
  split_ifs at h with h1 h2 h3 h4 h5 h6 h7 h8 h9 h10 h11
  all_goals cases h
  all_goals subst_vars
  all_goals
    simp [MahjongTile.number, MahjongTile.suit, HonorTile.number,
      HonorTile.suit, NumberTile.number, NumberTile.suit]

theorem buildMatch_cases (c : Char) (d : Nat) :
    (∃ t, buildMatch c d = .ok t) ∨
      buildMatch c d = .error "Invalid number for tile" ∨
      buildMatch c d = .error "Invalid suit" := by
  unfold buildMatch
  split_ifs <;> simp

theorem build_eq_some_ok {s : String} {t : MahjongTile}
    (h : build s = some (.ok t)) :
    ∃ c1 c2 d, s = String.mk [c1, c2] ∧ charToDigit10 c1 = some d ∧
      buildMatch c2 d = .ok t := by
  unfold build at h
  split_ifs at h with hl
  · cases Option.some.inj h
  · obtain ⟨c1, c2, hdata⟩ := List.length_eq_two.mp (not_ne_iff.mp hl)
    rw [hdata] at h
    simp only [List.getElem?_cons_zero, List.getElem?_cons_succ] at h
    rcases hd : charToDigit10 c1 with _ | d
    · rw [hd] at h
      cases Option.some.inj h
    · rw [hd] at h
      simp only [Option.isNone_some, Bool.false_eq_true, if_false] at h
      refine ⟨c1, c2, d, ?_, hd, Option.some.inj h⟩
      cases s
      simp_all

/-! Claim theorems. -/

/-- Claim C4: seat composition satisfies the group laws of Z/4Z — Hero is a
two-sided identity, and the operation is commutative and associative. -/
theorem seat_group_laws : ∀ a b c : PlayerLocation,
    PlayerLocation.move_relative a .Hero = some a ∧
    PlayerLocation.move_relative .Hero a = some a ∧
    PlayerLocation.move_relative a b = PlayerLocation.move_relative b a ∧
    (PlayerLocation.move_relative a b).bind
        (fun x => PlayerLocation.move_relative x c) =
      (PlayerLocation.move_relative b c).bind
        (fun y => PlayerLocation.move_relative a y) := by
  decide

/-- Claim C5: seat composition is total over its four-element domain — for
every pair of seats `move_relative` returns a seat, so the panic arm of the
final match (modelled as `none`) is unreachable. -/
theorem move_relative_total : ∀ a b : PlayerLocation,
    ∃ r : PlayerLocation, PlayerLocation.move_relative a b = some r := by
  decide

/-- Claim C6: seat composition is modular addition under the integer
embedding Hero=0, Right=1, Across=2, Left=3; in particular
`combine(Left, Left) = Across` and `combine(Right, Across) = Left`. -/
theorem move_relative_modular_add :
    (∀ a b : PlayerLocation, ∃ r : PlayerLocation,
      PlayerLocation.move_relative a b = some r ∧
        r.to_int = (a.to_int + b.to_int) % 4) ∧
    PlayerLocation.move_relative .Left .Left = some .Across ∧
    PlayerLocation.move_relative .Right .Across = some .Left := by
  decide

/-- Claim C7: building a Pon meld whose source seat equals the acting
subject seat is rejected with the invalid-meld error, for every seat and
every tile. -/
theorem pon_source_eq_subject_rejected :
    ∀ (subject : PlayerLocation) (tile : MahjongTile),
      buildPonMeld subject tile subject = .error .InvalidMeld := by
  intro subject tile
  simp [buildPonMeld]

/-- Claim C10: the default `GameConfig` has four players, East length,
20-second main and 5-second delay thinking times, three red fives, seat
names "player1".."player4", and absent event, site, date and result. -/
theorem game_config_default_fields :
    GameConfig.default.num_players = NumPlayers.Four ∧
    GameConfig.default.length = some Length.East ∧
    GameConfig.default.main_thinking_time = some ⟨20⟩ ∧
    GameConfig.default.delay_thinking_time = some ⟨5⟩ ∧
    GameConfig.default.red_five = some RedFive.Three ∧
    GameConfig.default.hero = "player1" ∧
    GameConfig.default.right = "player2" ∧
    GameConfig.default.across = "player3" ∧
    GameConfig.default.left = "player4" ∧
    GameConfig.default.event = none ∧
    GameConfig.default.site = none ∧
    GameConfig.default.date = none ∧
    GameConfig.default.result = none :=
  ⟨rfl, rfl, rfl, rfl, rfl, rfl, rfl, rfl, rfl, rfl, rfl, rfl, rfl⟩

/-- Claim C1: the tile codec is a bijection between valid strings and tiles
of the data model — `decode(encode(t)) = t` for every tile satisfying the
rank invariant (every Number tile of rank 0–9 and every Honor tile), and
`encode(decode(s)) = s` for every string `s` that decode accepts. -/
theorem tile_codec_bijection :
    (∀ t : MahjongTile, ValidTile t → build (encode t) = some (.ok t)) ∧
    (∀ (s : String) (t : MahjongTile), build s = some (.ok t) →
      encode t = s) := by
  constructor
  · intro t hv
    rcases t with ht | nt
    · rcases ht with d | c
      · cases d <;> decide
      · cases c <;> decide
    · rcases nt with n | n | n <;>
        (have hn : n ≤ 9 := hv
         interval_cases n <;> decide)
  · intro s t h
    obtain ⟨c1, c2, d, hs, hd, hm⟩ := build_eq_some_ok h
    obtain ⟨h48, h57, hdv⟩ := charToDigit10_eq_some hd
    obtain ⟨hnum, hsuit⟩ := buildMatch_eq_ok hm
    subst hs
    unfold encode
    rw [hnum, hsuit, hdv, repr_of_digit_char h48 h57]
    rfl

/-- Claim C1 witness: the round trip at the concrete tile 5-characters and
the concrete accepted string "1z". -/
theorem tile_codec_bijection_witness :
    ValidTile (MahjongTile.Number (.Character 5)) ∧
    build (encode (MahjongTile.Number (.Character 5))) =
      some (.ok (.Number (.Character 5))) ∧
    encode (MahjongTile.Honor (.Wind .East)) = String.mk ['1', 'z'] :=
  ⟨by decide,
   tile_codec_bijection.1 (.Number (.Character 5)) (by decide),
   tile_codec_bijection.2 (String.mk ['1', 'z']) (.Honor (.Wind .East))
     (by decide)⟩

/-- Claim C2: every rejected input falls into exactly one of four distinct
error kinds, checked in order — wrong length, first character not a digit,
honor digit 0/8/9, suit outside m/p/s/z — together with the spec's ten
concrete rejection examples and the pairwise distinctness of the messages. -/
theorem build_error_taxonomy :
    (∀ s : String, s.data.length ≠ 2 →
      build s = some (.error "Invalid number of characters")) ∧
    (∀ c1 c2 : Char, charToDigit10 c1 = none →
      build (String.mk [c1, c2]) =
        some (.error "First character is not a number")) ∧
    (∀ (c1 : Char) (d : Nat), charToDigit10 c1 = some d →
      d = 0 ∨ d = 8 ∨ d = 9 →
      build (String.mk [c1, 'z']) = some (.error "Invalid number for tile")) ∧
    (∀ (c1 c2 : Char) (d : Nat), charToDigit10 c1 = some d →
      c2 ≠ 'm' → c2 ≠ 'p' → c2 ≠ 's' → c2 ≠ 'z' →
      build (String.mk [c1, c2]) = some (.error "Invalid suit")) ∧
    (("Invalid number of characters" : String) ≠ "First character is not a number" ∧
     ("Invalid number of characters" : String) ≠ "Invalid number for tile" ∧
     ("Invalid number of characters" : String) ≠ "Invalid suit" ∧
     ("First character is not a number" : String) ≠ "Invalid number for tile" ∧
     ("First character is not a number" : String) ≠ "Invalid suit" ∧
     ("Invalid number for tile" : String) ≠ "Invalid suit") ∧
    (build "" = some (.error "Invalid number of characters") ∧
     build "a" = some (.error "Invalid number of characters") ∧
     build "2" = some (.error "Invalid number of characters") ∧
     build "aa" = some (.error "First character is not a number") ∧
     build "gz" = some (.error "First character is not a number") ∧
     build "0z" = some (.error "Invalid number for tile") ∧
     build "8z" = some (.error "Invalid number for tile") ∧
     build "9z" = some (.error "Invalid number for tile") ∧
     build "1a" = some (.error "Invalid suit") ∧
     build "3b" = some (.error "Invalid suit")) := by
  refine ⟨?_, ?_, ?_, ?_, by decide, by decide⟩
  · intro s h
    unfold build
    rw [if_pos h]
  · intro c1 c2 h
    simp [build, h]
  · intro c1 d hd hor
    rcases hor with rfl | rfl | rfl <;> simp [build, buildMatch, hd]
  · intro c1 c2 d hd hm hp hs hz
    simp [build, buildMatch, hd, hm, hp, hs, hz]

/-- Claim C2 witness: the classification rules applied at the concrete
inputs "abc", "gz", "0z" and "1a". -/
theorem build_error_taxonomy_witness :
    build "abc" = some (.error "Invalid number of characters") ∧
    build (String.mk ['g', 'z']) =
      some (.error "First character is not a number") ∧
    build (String.mk ['0', 'z']) = some (.error "Invalid number for tile") ∧
    build (String.mk ['1', 'a']) = some (.error "Invalid suit") :=
  ⟨build_error_taxonomy.1 "abc" (by decide),
   build_error_taxonomy.2.1 'g' 'z' (by decide),
   build_error_taxonomy.2.2.1 '0' 0 (by decide) (Or.inl rfl),
   build_error_taxonomy.2.2.2.1 '1' 'a' 1 (by decide) (by decide) (by decide)
     (by decide) (by decide)⟩

/-- Claim C3: encode always produces the canonical two-character form
digit-then-suit on tiles of the data model; the honor ordinal is computed
from the variant by the fixed table; and the spec's three display examples
hold. -/
theorem encode_canonical_form :
    (∀ t : MahjongTile, ValidTile t →
      (encode t).data = [Nat.digitChar t.number, t.suit]) ∧
    (HonorTile.number (.Wind .East) = 1 ∧
     HonorTile.number (.Wind .South) = 2 ∧
     HonorTile.number (.Wind .West) = 3 ∧
     HonorTile.number (.Wind .North) = 4 ∧
     HonorTile.number (.Dragon .White) = 5 ∧
     HonorTile.number (.Dragon .Green) = 6 ∧
     HonorTile.number (.Dragon .Red) = 7) ∧
    (encode (.Number (.Character 5)) = "5m" ∧
     encode (.Honor (.Wind .East)) = "1z" ∧
     encode (.Honor (.Dragon .Red)) = "7z") := by
  refine ⟨?_, by decide, by decide⟩
  intro t hv
  rcases t with ht | nt
  · rcases ht with d | c
    · cases d <;> decide
    · cases c <;> decide
  · rcases nt with n | n | n <;>
      (have hn : n ≤ 9 := hv
       interval_cases n <;> decide)

/-- Claim C3 witness: the canonical form at the concrete 5-characters tile. -/
theorem encode_canonical_form_witness :
    ValidTile (MahjongTile.Number (.Character 5)) ∧
    (encode (MahjongTile.Number (.Character 5))).data =
      [Nat.digitChar (MahjongTile.Number (.Character 5)).number,
       (MahjongTile.Number (.Character 5)).suit] :=
  ⟨by decide, encode_canonical_form.1 (.Number (.Character 5)) (by decide)⟩

/-- Claim C8: decode never aborts — on every input string, `build` returns
a value (never the `none` that models a panic of the `.expect` calls), and
that value is either `ok` or one of the four named errors. -/
theorem build_never_panics : ∀ s : String,
    ∃ r : Except String MahjongTile, build s = some r ∧
      ((∃ t, r = .ok t) ∨
        r = .error "Invalid number of characters" ∨
        r = .error "First character is not a number" ∨
        r = .error "Invalid number for tile" ∨
        r = .error "Invalid suit") := by
  intro s
  by_cases hl : s.data.length ≠ 2
  · exact ⟨.error "Invalid number of characters",
      by unfold build; rw [if_pos hl], Or.inr (Or.inl rfl)⟩
  · obtain ⟨c1, c2, hdata⟩ := List.length_eq_two.mp (not_ne_iff.mp hl)
    rcases hd : charToDigit10 c1 with _ | d
    · refine ⟨.error "First character is not a number", ?_,
        Or.inr (Or.inr (Or.inl rfl))⟩
      simp [build, hdata, hd]
    · refine ⟨buildMatch c2 d, ?_, ?_⟩
      · simp [build, hdata, hd]
      · rcases buildMatch_cases c2 d with ⟨t, ht⟩ | h | h
        · exact Or.inl ⟨t, ht⟩
        · exact Or.inr (Or.inr (Or.inr (Or.inl h)))
        · exact Or.inr (Or.inr (Or.inr (Or.inr h)))

/-- Claim C9: every tile decode returns lies in the codec's valid range —
its number is at most 9, and an Honor result has number 1–7 and suit 'z'. -/
theorem build_ok_in_range : ∀ (s : String) (t : MahjongTile),
    build s = some (.ok t) →
    t.number ≤ 9 ∧
      ∀ h : HonorTile, t = .Honor h →
        1 ≤ t.number ∧ t.number ≤ 7 ∧ t.suit = 'z' := by
  intro s t hbuild
  obtain ⟨c1, c2, d, hs, hd, hm⟩ := build_eq_some_ok hbuild
  obtain ⟨h48, h57, hdv⟩ := charToDigit10_eq_some hd
  obtain ⟨hnum, hsuit⟩ := buildMatch_eq_ok hm
  constructor
  · rw [hnum, hdv]
    omega
  · rintro h rfl
    rcases h with dd | cc
    · cases dd <;> decide
    · cases cc <;> decide

/-- Claim C9 witness: the range facts at the concrete accepted input "1z". -/
theorem build_ok_in_range_witness :
    (MahjongTile.Honor (.Wind .East)).number ≤ 9 ∧
    1 ≤ (MahjongTile.Honor (.Wind .East)).number ∧
    (MahjongTile.Honor (.Wind .East)).number ≤ 7 ∧
    (MahjongTile.Honor (.Wind .East)).suit = 'z' :=
  ⟨(build_ok_in_range (String.mk ['1', 'z']) (.Honor (.Wind .East))
      (by decide)).1,
   (build_ok_in_range (String.mk ['1', 'z']) (.Honor (.Wind .East))
      (by decide)).2 (.Wind .East) rfl⟩

end MajReplay
